import Mathlib

/-!
Verification of the recursive directory-transfer engine of the `copy`
command-line utility (main.c, progress.c, copy-util.c) against its
natural-language specification.

The development shallowly embeds the C code:
* byte counts (`byte_t`, a `uint64_t`) become `Nat`;
* `long double` values flowing through `format_percent`, `format_size`
  and the progress bar are modelled as exact rationals together with an
  explicit not-a-number / infinity classification.  All inputs of these
  computations are unsigned 64-bit integers, which convert to
  `long double` exactly, so the nan / inf / finite classification of the
  quotients is captured exactly by the rational model.  The sub-ulp
  rounding error of the division itself is not modelled; `printf`
  rounding (`%.0Lf`, `%.1Lf`) is modelled as round-to-nearest, ties to
  even, and `roundl` as round-to-nearest, ties away from zero;
* the filesystem seen through `stat`/`readdir` becomes an inductive tree
  (`FSEntry`): regular files and directories carry what `stat` reports,
  `special` covers entries that are neither regular nor directories
  (their `st_size` is kept as data because POSIX leaves it unspecified
  for such entries), and `broken` covers entries on which `stat` fails.
  Symbolic links never appear as such: `stat` follows them, so an entry
  simply carries whatever classification the target has (the spec
  explicitly adopts this stat-level view).  `.` and `..`, which the code
  filters out, are excluded from the tree by construction;
* the interactive overwrite prompt becomes an oracle `answers : Nat → Bool`
  giving the final recognised reply of the i-th prompt issued (the
  re-prompt loop for unrecognised input always terminates in one of the
  two recognised classes, so a `Bool` is faithful);
* the `stat` performed by `check_real_destination_path` inside the copy
  loop becomes an oracle `rpath_is_file : Nat → Bool` telling whether the
  real destination path of the x-th item is a regular file at that
  moment (the destination filesystem is external mutable state).
-/

namespace Copy

/- ------------------------------------------------------------------ -/
/- Rounding helpers for the long double model                          -/
/- ------------------------------------------------------------------ -/

/-- Round to nearest integer, ties away from zero: the behaviour of the
C `roundl` function used by `progress_bar_set`. -/
def roundHalfAway (q : ℚ) : ℤ :=
  if 0 ≤ q then ⌊q + 1 / 2⌋ else -⌊-q + 1 / 2⌋

/-- Round to nearest integer, ties to even: the rounding performed by
`printf` conversions such as `%.0Lf` under IEEE round-to-nearest. -/
def roundHalfEven (q : ℚ) : ℤ :=
  if q - ⌊q⌋ < 1 / 2 then ⌊q⌋
  else if 1 / 2 < q - ⌊q⌋ then ⌊q⌋ + 1
  else if 2 ∣ ⌊q⌋ then ⌊q⌋ else ⌊q⌋ + 1

/-- Classification of a `long double` value: the cases `format_percent`
distinguishes via `isnan`, plus finite values kept exactly. -/
inductive LDClass : Type where
  | nan : LDClass
  | inf : LDClass
  | fin (q : ℚ) : LDClass
deriving DecidableEq

/-- `(long double) a / (long double) b` for `uint64_t` inputs: `0/0` is
NaN, `a/0` with `a ≠ 0` is `+inf`, otherwise finite. -/
def ldDiv (a b : Nat) : LDClass :=
  if b = 0 then (if a = 0 then LDClass.nan else LDClass.inf)
  else LDClass.fin ((a : ℚ) / (b : ℚ))

/- ------------------------------------------------------------------ -/
/- ByteFormatter: format_percent and format_size (copy-util.c)         -/
/- ------------------------------------------------------------------ -/

def PERCENT_BUFMAX : Nat := 6

/-- Embedding of `format_percent` (copy-util.c).  The C code computes
`x = so_far / total`, returns `"0%"` when `isnan (x) || isnan (x * 100)`,
and otherwise runs `snprintf (buffer, PERCENT_BUFMAX, "%.0Lf%%", x * 100)`.
A positive value divided by zero is `+inf`, not NaN, and glibc prints it
as `inf`, so that branch yields `inf%` (4 characters, within the
buffer).  `snprintf` writes at most `PERCENT_BUFMAX - 1 = 5` characters
before the terminator, so the formatted digits-plus-`%` string is
truncated to its first 5 bytes; every character involved is ASCII, so
bytes and characters coincide and the truncation is a `List.take` on
the character list. -/
def format_percent (so_far total : Nat) : String :=
  match ldDiv so_far total with
  | LDClass.nan => "0%"
  | LDClass.inf => "inf%"
  | LDClass.fin x =>
    String.mk ((toString (roundHalfEven (x * 100)) ++ "%").data.take (PERCENT_BUFMAX - 1))

def KB_FACTOR : Nat := 1000
def MB_FACTOR : Nat := 1000000
def GB_FACTOR : Nat := 1000000000
def TB_FACTOR : Nat := 1000000000000
def PB_FACTOR : Nat := 1000000000000000
def EB_FACTOR : Nat := 1000000000000000000

/-- The scaled value `bytes / factor` printed with `%.1Lf`, kept as an
integer number of tenths. -/
def size_scaled_tenths (bytes factor : Nat) : ℤ :=
  roundHalfEven ((bytes : ℚ) / (factor : ℚ) * 10)

/-- The `__sfmt` macro of `format_size` in short (`%.1Lf`) form:
one digit after the decimal point, followed by the unit letter. -/
def sfmt_short (bytes factor : Nat) (unit : Char) : String :=
  let t := (size_scaled_tenths bytes factor).toNat
  toString (t / 10) ++ "." ++ toString (t % 10) ++ String.mk [unit]

/-- Embedding of `format_size (buffer, bytes, false)` (copy-util.c):
successive threshold comparisons from smallest to largest unit; byte
counts below 1000 print as a bare integer followed by `B`. -/
def format_size_short (bytes : Nat) : String :=
  if bytes < KB_FACTOR then toString bytes ++ "B"
  else if bytes < MB_FACTOR then sfmt_short bytes KB_FACTOR 'K'
  else if bytes < GB_FACTOR then sfmt_short bytes MB_FACTOR 'M'
  else if bytes < TB_FACTOR then sfmt_short bytes GB_FACTOR 'G'
  else if bytes < PB_FACTOR then sfmt_short bytes TB_FACTOR 'T'
  else if bytes < EB_FACTOR then sfmt_short bytes PB_FACTOR 'P'
  else sfmt_short bytes EB_FACTOR 'E'

/-- The divisor `format_size` selects for a given byte count. -/
def format_size_factor (bytes : Nat) : Nat :=
  if bytes < KB_FACTOR then 1
  else if bytes < MB_FACTOR then KB_FACTOR
  else if bytes < GB_FACTOR then MB_FACTOR
  else if bytes < TB_FACTOR then GB_FACTOR
  else if bytes < PB_FACTOR then TB_FACTOR
  else if bytes < EB_FACTOR then PB_FACTOR
  else EB_FACTOR

/-- The numeric value printed by `format_size_short`, in tenths of the
chosen unit (an exact integer both for the `B` branch and for the
`%.1Lf` branches). -/
def printed_tenths (bytes : Nat) : ℤ :=
  if bytes < KB_FACTOR then (bytes : ℤ) * 10
  else size_scaled_tenths bytes (format_size_factor bytes)

/- ------------------------------------------------------------------ -/
/- PathResolver: basename and get_real_destination_path                -/
/- ------------------------------------------------------------------ -/

def DIR_SEPARATOR : Char := '/'

def PATH_BUFMAX : Nat := 1024

def isDirSeparator (c : Char) : Bool := c = DIR_SEPARATOR

/-- The four destination / source classifications of main.c plus the
initial `TYPE_UNKNOWN` sentinel. -/
inductive DstType : Type where
  | unknown : DstType
  | non_existing : DstType
  | unsupported : DstType
  | file : DstType
  | directory : DstType
deriving DecidableEq

/-- Embedding of `basename` (copy-util.c, non-Windows branch), over the
character list of the path.  The C code scans `last_non_slash` back over
trailing separators (here: dropping separators from the reversed list),
then scans `base` back to the previous separator (here: taking the
separator-free run), and copies at most `PATH_BUFMAX - 1` characters of
that final component into the buffer. -/
def basename (path : List Char) : List Char :=
  if path.isEmpty then ['.']
  else
    let rev := path.reverse.dropWhile isDirSeparator
    if rev.isEmpty then [DIR_SEPARATOR]
    else ((rev.takeWhile (fun c => !isDirSeparator c)).reverse).take (PATH_BUFMAX - 1)

/-- Embedding of `get_real_destination_path` (main.c): anything that is
not classified as a directory keeps `dst_path` verbatim; a directory
destination gets `dst_path`, the separator, and the base name of the
source appended. -/
def get_real_destination_path (dst_path : List Char) (dst_type : DstType)
    (src_path : List Char) : List Char :=
  if dst_type ≠ DstType.directory then dst_path
  else dst_path ++ DIR_SEPARATOR :: basename src_path

/-- Modelled from the words of spec section 4.2: `RealDestinationPath
(destPath, destIsDirectory, sourcePath)`; if the destination is not a
directory the real destination is `destPath` itself, otherwise it is
`destPath` joined with `BaseName (sourcePath)`. -/
def RealDestinationPath (destPath : List Char) (destIsDirectory : Bool)
    (sourcePath : List Char) : List Char :=
  if destIsDirectory then destPath ++ DIR_SEPARATOR :: basename sourcePath
  else destPath

/-- String-level wrapper of `get_real_destination_path` used by the
engine model. -/
def grdpStr (dst : String) (ty : DstType) (src : String) : String :=
  String.mk (get_real_destination_path dst.data ty src.data)

/- ------------------------------------------------------------------ -/
/- Filesystem model                                                    -/
/- ------------------------------------------------------------------ -/

mutual

/-- What `stat` and `readdir` report about one filesystem entry.
`file n` is a regular file whose `st_size` is `n`; `dir cs` is a
directory with children `cs` (without `.` and `..`, which the code
filters out); `special n` is a statable entry that is neither a regular
file nor a directory, with `n` the value `stat` reports in `st_size`
(POSIX leaves it unspecified for such entries); `broken` is an entry on
which `stat` fails. -/
inductive FSEntry : Type where
  | file (size : Nat) : FSEntry
  | special (statSize : Nat) : FSEntry
  | broken : FSEntry
  | dir (children : FSList) : FSEntry

/-- The sequence of entries `readdir` yields for a directory. -/
inductive FSList : Type where
  | nil : FSList
  | cons (entry : FSEntry) (rest : FSList) : FSList

end

mutual

/-- One iteration of the `directory_content_size` loop (main.c): if
`stat` on the child succeeds, a directory child is recursed into and
anything else contributes its `st_size`; a failing `stat` is silently
skipped.  Note the absence of an `S_ISREG` check. -/
def dcs_entry : FSEntry → Nat
  | FSEntry.file n => n
  | FSEntry.special n => n
  | FSEntry.broken => 0
  | FSEntry.dir cs => dcs_children cs

def dcs_children : FSList → Nat
  | FSList.nil => 0
  | FSList.cons e rest => dcs_entry e + dcs_children rest

end

/-- Embedding of `directory_content_size` (main.c), which the code only
invokes on directories (`opendir` on anything else fails fatally). -/
def directory_content_size : FSEntry → Nat
  | FSEntry.dir cs => dcs_children cs
  | _ => 0

mutual

/-- Modelled from the words of spec section 4.3: contribution of one
entry to `SubtreeByteSize`, which sums `stat.size` for every regular
file, walks directories without counting them, and silently skips
symlink / special entries. -/
def regular_sum_entry : FSEntry → Nat
  | FSEntry.file n => n
  | FSEntry.special _ => 0
  | FSEntry.broken => 0
  | FSEntry.dir cs => regular_sum_children cs

def regular_sum_children : FSList → Nat
  | FSList.nil => 0
  | FSList.cons e rest => regular_sum_entry e + regular_sum_children rest

end

/-- Modelled from the words of spec section 4.3: `SubtreeByteSize` of a
directory. -/
def SubtreeByteSize : FSEntry → Nat
  | FSEntry.dir cs => regular_sum_children cs
  | _ => 0

mutual

/-- `true` when every special (non-regular, non-directory) entry in the
subtree has `st_size` zero, so that the missing `S_ISREG` check in
`directory_content_size` cannot be observed. -/
def specials_zero_entry : FSEntry → Bool
  | FSEntry.file _ => true
  | FSEntry.special n => n = 0
  | FSEntry.broken => true
  | FSEntry.dir cs => specials_zero_children cs

def specials_zero_children : FSList → Bool
  | FSList.nil => true
  | FSList.cons e rest => specials_zero_entry e && specials_zero_children rest

end

/- ------------------------------------------------------------------ -/
/- TransferEngine: chunked file streaming                              -/
/- ------------------------------------------------------------------ -/

def CHUNK_SIZE : Nat := 10000

/-- Worker for `chunks`, structurally recursive on a fuel argument so
that it reduces definitionally.  The fuel only bounds the number of
loop iterations; `chunks` passes `n` itself, which always suffices
because every iteration but the last consumes `CHUNK_SIZE ≥ 1` bytes. -/
def chunksAux : Nat → Nat → List Nat
  | 0, n => [n]
  | fuel + 1, n =>
    if CHUNK_SIZE ≤ n then CHUNK_SIZE :: chunksAux fuel (n - CHUNK_SIZE) else [n]

/-- The sequence of `bytes_read` values the `transfer_file` loop obtains
for an error-free source file of `n` bytes: full chunks while at least
`CHUNK_SIZE` bytes remain, then one final short (possibly empty) read
that sets `feof` and ends the loop.  Each element is reported to
`progress_update` when progress is enabled. -/
def chunks (n : Nat) : List Nat :=
  chunksAux n n

/-- The outcome of one `fread` in the `transfer_file` loop: the byte
count returned, and the `ferror` / `feof` state of the source stream
after it. -/
structure ReadStep : Type where
  bytes : Nat
  err : Bool
  eof : Bool
deriving DecidableEq

/-- The chunk sizes `transfer_file` passes to `fwrite` and (with
progress enabled) to `progress_update`, given the successive `fread`
outcomes: every read is written and reported first, and the loop stops
after the first read that left `ferror` or `feof` set. -/
def transfer_file_events : List ReadStep → List Nat
  | [] => []
  | s :: rest => s.bytes :: (if s.err || s.eof then [] else transfer_file_events rest)

/-- Embedding of `transfer_file` (main.c): `none` means the process was
terminated with `exit (EXIT_FAILURE)`, `some events` means the function
returned normally to its caller having streamed the given chunks.  Only
a failing `fopen` of the source or destination terminates the process;
the read / write loop never does (a source stream error merely breaks
the loop, and the destination stream is never checked at all). -/
def transfer_file_run (src_open_ok dst_open_ok : Bool)
    (reads : List ReadStep) : Option (List Nat) :=
  if !src_open_ok then none
  else if !dst_open_ok then none
  else some (transfer_file_events reads)

mutual

/-- One iteration of the `transfer_directory` loop (main.c) for a child
entry: a failing `stat` is skipped, a directory child is created and
recursed into, a regular file is stream-copied, and anything else is
only passed to `preserve_attributes`.  The result is the list of chunk
sizes reported to `progress_update`. -/
def transfer_child_updates : FSEntry → List Nat
  | FSEntry.file n => chunks n
  | FSEntry.special _ => []
  | FSEntry.broken => []
  | FSEntry.dir cs => transfer_directory_updates cs

def transfer_directory_updates : FSList → List Nat
  | FSList.nil => []
  | FSList.cons e rest => transfer_child_updates e ++ transfer_directory_updates rest

end

/-- The chunk sizes one top-level item reports during `do_copy`:
a directory source goes through `transfer_directory`, anything else
through `transfer_file`.  (A special or broken top-level source never
reaches `do_copy`: planning already died on it.) -/
def transfer_updates : FSEntry → List Nat
  | FSEntry.file n => chunks n
  | FSEntry.dir cs => transfer_directory_updates cs
  | FSEntry.special _ => []
  | FSEntry.broken => []

/- ------------------------------------------------------------------ -/
/- ProgressTracker: bar geometry and rendering (progress.c)            -/
/- ------------------------------------------------------------------ -/

/-- What `stat` reported for the destination path at the start of
`try_copy` (before the `dst_type == TYPE_UNKNOWN` resolution). -/
inductive DstInit : Type where
  | nonExisting : DstInit
  | existsFile : DstInit
  | existsDir : DstInit
  | existsOther : DstInit
  | statFail : DstInit
deriving DecidableEq

/-- `pdata.bar.size` as computed by `progress_bar_set` (progress.c):
the remaining horizontal space minus the width of the text after the
bar minus 2 bracket characters.  The result is a plain C `int` and can
be negative. -/
def progress_bar_size (remaining_space space_after_bar : ℤ) : ℤ :=
  remaining_space - space_after_bar - 2

/-- `pdata.bar.fill` as computed by `progress_bar_set`:
`roundl (factor * size)` with `factor = current_so_far / current_total`.
Only meaningful for `total ≠ 0` (with a zero total the C factor is NaN
and the conversion of `roundl` to `int` is undefined). -/
def progress_bar_fill (size : ℤ) (so_far total : Nat) : ℤ :=
  roundHalfAway ((so_far : ℚ) / (total : ℚ) * (size : ℚ))

/-- The bar characters emitted by `progress_show` (progress.c): nothing
when `pdata.bar.size` is zero (the guard is `if (pdata.bar.size)`, a
plain non-zero test), otherwise `[`, then one `=` per loop iteration
while `x < fill`, the head `>`, then one space while `x < size`, then
`]`.  Both loop counts collapse to zero for negative values, exactly as
the C `int` comparisons do. -/
def progress_bar_render (size fill : ℤ) : List Char :=
  if size = 0 then []
  else
    '[' :: (List.replicate fill.toNat '=' ++
      '>' :: (List.replicate (size - (fill.toNat : ℤ)).toNat ' ' ++ [']']))

/- ------------------------------------------------------------------ -/
/- TransferEngine: planning and the sequential copy loop (main.c)      -/
/- ------------------------------------------------------------------ -/

/-- Resolution of the destination type at the top of `try_copy`
(main.c).  `none` means the code died (fatal stat failure).  For a
non-existing destination with several sources the code runs
`make_path` and re-stats; the model assumes the creation succeeded (the
failure branches also die, and no claim concerns them).  For a
non-existing destination with a single source only the parent directory
is created and the classification stays `TYPE_NON_EXISTING`. -/
def classify_dst (n_src : Nat) (d : DstInit) : Option DstType :=
  match d with
  | DstInit.statFail => none
  | DstInit.nonExisting =>
      if n_src > 1 then some DstType.directory else some DstType.non_existing
  | DstInit.existsFile => some DstType.file
  | DstInit.existsDir => some DstType.directory
  | DstInit.existsOther => some DstType.unsupported

/-- Per-source stat and sizing in the planning loop of `try_copy`:
a directory source is sized with `directory_content_size`, a regular
file with its `st_size`; a special source dies fatally (`unsupported
source`) and a failing stat dies fatally, both modelled as `none`. -/
def src_size : FSEntry → Option Nat
  | FSEntry.file n => some n
  | FSEntry.dir cs => some (dcs_children cs)
  | FSEntry.special _ => none
  | FSEntry.broken => none

/-- The planning loop of `try_copy` over the source list: classifies
and sizes every source, accumulating `total_bytes`; `none` when any
source is unsupported or cannot be stat-ed (the process dies). -/
def plan_total : List (String × FSEntry) → Option Nat
  | [] => some 0
  | (_, e) :: rest =>
    match src_size e with
    | none => none
    | some sz =>
      match plan_total rest with
      | none => none
      | some t => some (sz + t)

/-- Outcome of the sequential copy loop of `try_copy`. -/
structure LoopOut : Type where
  completed : Nat
  prompts : List String
  declined : Bool
  events : List Nat

/-- Embedding of the copy loop of `try_copy` (main.c): for each source,
resolve the real destination path; if `check_real_destination_path`
finds a regular file there, prompt for overwrite and on a negative
answer print an error and break out of the loop; otherwise run
`do_copy`, whose chunk writes are reported to `progress_update` only
when progress is enabled.  `x` is the item index (drives the
destination-stat oracle), `pi` the count of prompts issued so far in
the whole run (drives the answer oracle). -/
def copy_loop (dst_path : String) (dst_type : DstType) (show_progress : Bool)
    (answers rpath_is_file : Nat → Bool) :
    List (String × FSEntry) → Nat → Nat → LoopOut
  | [], _, _ => ⟨0, [], false, []⟩
  | (sp, e) :: rest, x, pi =>
    let rpath := grdpStr dst_path dst_type sp
    if rpath_is_file x then
      if answers pi then
        let upd := if show_progress then transfer_updates e else []
        let r := copy_loop dst_path dst_type show_progress answers rpath_is_file
          rest (x + 1) (pi + 1)
        ⟨r.completed + 1, rpath :: r.prompts, r.declined, upd ++ r.events⟩
      else ⟨0, [rpath], true, []⟩
    else
      let upd := if show_progress then transfer_updates e else []
      let r := copy_loop dst_path dst_type show_progress answers rpath_is_file
        rest (x + 1) pi
      ⟨r.completed + 1, r.prompts, r.declined, upd ++ r.events⟩

/-- Observable outcome of one whole run (`try_copy` followed by the
`exit (EXIT_SUCCESS)` in `main`). -/
structure RunResult : Type where
  exitCode : Nat
  prompts : List String
  planningDeclined : Bool
  loopDeclined : Bool
  total_bytes : Nat
  update_events : List Nat
  so_far_bytes : Nat
  itemsCompleted : Nat

/-- The tail of `try_copy` after destination-type resolution and the
planning-phase overwrite check: source classification and sizing, then
the sequential copy loop.  `pi0` and `prompts0` account for a prompt
already issued during planning. -/
def run_after_plan (sources : List (String × FSEntry)) (dst_path : String)
    (dty : DstType) (show_progress : Bool) (answers rpath_is_file : Nat → Bool)
    (pi0 : Nat) (prompts0 : List String) : RunResult :=
  match plan_total sources with
  | none => ⟨1, prompts0, false, false, 0, [], 0, 0⟩
  | some total =>
    let out := copy_loop dst_path dty show_progress answers rpath_is_file sources 0 pi0
    ⟨0, prompts0 ++ out.prompts, false, out.declined, total,
      out.events, out.events.sum, out.completed⟩

/-- Embedding of `try_copy` (main.c) plus the final
`exit (EXIT_SUCCESS)` of `main`: destination resolution, the ambiguity
check for multiple sources, the planning-phase overwrite prompt for a
single source onto a regular-file destination, source sizing, and the
copy loop.  The post-copy report and the optional checksum pass do not
influence any of the modelled observables and are omitted. -/
def try_copy_run (sources : List (String × FSEntry)) (dst_path : String)
    (dst_init : DstInit) (show_progress : Bool)
    (answers rpath_is_file : Nat → Bool) : RunResult :=
  match classify_dst sources.length dst_init with
  | none => ⟨1, [], false, false, 0, [], 0, 0⟩
  | some dty =>
    if sources.length > 1 ∧ dty ≠ DstType.directory then ⟨1, [], false, false, 0, [], 0, 0⟩
    else if sources.length = 1 ∧ dty = DstType.file then
      if answers 0 then
        run_after_plan sources dst_path dty show_progress answers rpath_is_file
          1 [dst_path]
      else ⟨1, [dst_path], true, false, 0, [], 0, 0⟩
    else
      run_after_plan sources dst_path dty show_progress answers rpath_is_file 0 []

/- ------------------------------------------------------------------ -/
/- Helper lemmas                                                       -/
/- ------------------------------------------------------------------ -/

theorem chunksAux_sum (fuel : Nat) : ∀ n, (chunksAux fuel n).sum = n := by
  induction fuel with
  | zero => intro n; simp [chunksAux]
  | succ fuel ih =>
    intro n
    rw [chunksAux]
    split
    · next h =>
      rw [List.sum_cons, ih (n - CHUNK_SIZE)]
      omega
    · simp

theorem chunks_sum (n : Nat) : (chunks n).sum = n := chunksAux_sum n n

mutual

theorem dcs_entry_eq_regular : (e : FSEntry) → specials_zero_entry e = true →
    dcs_entry e = regular_sum_entry e
  | FSEntry.file _, _ => rfl
  | FSEntry.special n, h => by
    have hn : n = 0 := by simpa [specials_zero_entry] using h
    simp [dcs_entry, regular_sum_entry, hn]
  | FSEntry.broken, _ => rfl
  | FSEntry.dir cs, h =>
    dcs_children_eq_regular cs (by simpa [specials_zero_entry] using h)

theorem dcs_children_eq_regular : (cs : FSList) → specials_zero_children cs = true →
    dcs_children cs = regular_sum_children cs
  | FSList.nil, _ => rfl
  | FSList.cons e rest, h => by
    have h1 : specials_zero_entry e = true := by
      have := h
      simp [specials_zero_children, Bool.and_eq_true] at this
      exact this.1
    have h2 : specials_zero_children rest = true := by
      have := h
      simp [specials_zero_children, Bool.and_eq_true] at this
      exact this.2
    simp [dcs_children, regular_sum_children,
      dcs_entry_eq_regular e h1, dcs_children_eq_regular rest h2]

end

mutual

theorem transfer_child_sum : (e : FSEntry) → specials_zero_entry e = true →
    (transfer_child_updates e).sum = dcs_entry e
  | FSEntry.file n, _ => by
    simpa [transfer_child_updates, dcs_entry] using chunks_sum n
  | FSEntry.special n, h => by
    have hn : n = 0 := by simpa [specials_zero_entry] using h
    simp [transfer_child_updates, dcs_entry, hn]
  | FSEntry.broken, _ => rfl
  | FSEntry.dir cs, h => by
    have := transfer_directory_sum cs (by simpa [specials_zero_entry] using h)
    simpa [transfer_child_updates, dcs_entry] using this

theorem transfer_directory_sum : (cs : FSList) → specials_zero_children cs = true →
    (transfer_directory_updates cs).sum = dcs_children cs
  | FSList.nil, _ => rfl
  | FSList.cons e rest, h => by
    have h1 : specials_zero_entry e = true := by
      have := h
      simp [specials_zero_children, Bool.and_eq_true] at this
      exact this.1
    have h2 : specials_zero_children rest = true := by
      have := h
      simp [specials_zero_children, Bool.and_eq_true] at this
      exact this.2
    simp [transfer_directory_updates, dcs_children,
      transfer_child_sum e h1, transfer_directory_sum rest h2]

end

theorem transfer_updates_sum (e : FSEntry) (sz : Nat)
    (hclean : specials_zero_entry e = true) (hsz : src_size e = some sz) :
    (transfer_updates e).sum = sz := by
  cases e with
  | file n =>
    have : n = sz := by simpa [src_size] using hsz
    simpa [transfer_updates, this] using chunks_sum n
  | dir cs =>
    have : dcs_children cs = sz := by simpa [src_size] using hsz
    have hsum := transfer_directory_sum cs (by simpa [specials_zero_entry] using hclean)
    simpa [transfer_updates, this] using hsum
  | special n => simp [src_size] at hsz
  | broken => simp [src_size] at hsz

theorem sum_take_mono (l : List Nat) :
    ∀ k m, k ≤ m → (l.take k).sum ≤ (l.take m).sum := by
  induction l with
  | nil => intro k m _; simp
  | cons a t ih =>
    intro k m hkm
    cases k with
    | zero => simp
    | succ k =>
      cases m with
      | zero => omega
      | succ m =>
        simp only [List.take_succ_cons, List.sum_cons]
        exact Nat.add_le_add_left (ih k m (Nat.succ_le_succ_iff.mp hkm)) a

theorem roundHalfEven_le_floor_add_one (q : ℚ) : roundHalfEven q ≤ ⌊q⌋ + 1 := by
  unfold roundHalfEven
  split
  · omega
  · split
    · omega
    · split <;> omega

theorem roundHalfEven_intCast (n : ℤ) : roundHalfEven ((n : ℤ) : ℚ) = n := by
  unfold roundHalfEven
  rw [Int.floor_intCast]
  have hc : ((n : ℤ) : ℚ) - ((n : ℤ) : ℚ) < 1 / 2 := by norm_num
  rw [if_pos hc]

theorem roundHalfEven_nonneg {q : ℚ} (hq : 0 ≤ q) : 0 ≤ roundHalfEven q := by
  have h0 : (0 : ℤ) ≤ ⌊q⌋ := Int.floor_nonneg.mpr hq
  unfold roundHalfEven
  split
  · exact h0
  · split
    · omega
    · split <;> omega

/-- A nonnegative integer of at most four decimal digits, together with
the `%` sign, fits the 5-character payload of `PERCENT_BUFMAX`, so the
`snprintf` truncation is a no-op on it. -/
theorem percent_take_of_le_9999 (r : ℤ) (hr0 : 0 ≤ r) (hr1 : r ≤ 9999) :
    String.mk ((toString r ++ "%").data.take (PERCENT_BUFMAX - 1))
      = toString r ++ "%" := by
  obtain ⟨m, rfl⟩ : ∃ m : Nat, r = Int.ofNat m :=
    ⟨r.toNat, (Int.toNat_of_nonneg hr0).symm⟩
  have hm : m < 10 ^ 4 := by
    have hm9 : m ≤ 9999 := Int.ofNat_le.mp hr1
    omega
  have hlen : (toString (Int.ofNat m)).length ≤ 4 := by
    show (Nat.repr m).length ≤ 4
    exact Nat.repr_length m 4 (by norm_num) hm
  have hdata : ((toString (Int.ofNat m) ++ "%").data).length ≤ PERCENT_BUFMAX - 1 := by
    rw [String.data_append]
    rw [List.length_append]
    have h2 : (toString (Int.ofNat m)).data.length ≤ 4 := hlen
    have h3 : ("%" : String).data.length = 1 := rfl
    rw [h3]
    have h4 : PERCENT_BUFMAX - 1 = 5 := rfl
    omega
  rw [List.take_of_length_le hdata]

theorem roundHalfAway_nonpos {q : ℚ} (hq : q ≤ 0) : roundHalfAway q ≤ 0 := by
  unfold roundHalfAway
  split
  · next h =>
    have hq0 : q = 0 := le_antisymm hq h
    simp [hq0]
    norm_num
  · next h =>
    have h1 : (0 : ℚ) ≤ -q + 1 / 2 := by linarith
    have h2 : (0 : ℤ) ≤ ⌊-q + 1 / 2⌋ := Int.floor_nonneg.mpr h1
    omega

theorem copy_loop_no_progress (dst : String) (ty : DstType)
    (answers rfile : Nat → Bool) :
    ∀ (items : List (String × FSEntry)) (x pi : Nat),
      (copy_loop dst ty false answers rfile items x pi).events = [] ∧
      (copy_loop dst ty false answers rfile items x pi).completed
        = (copy_loop dst ty true answers rfile items x pi).completed ∧
      (copy_loop dst ty false answers rfile items x pi).prompts
        = (copy_loop dst ty true answers rfile items x pi).prompts ∧
      (copy_loop dst ty false answers rfile items x pi).declined
        = (copy_loop dst ty true answers rfile items x pi).declined := by
  intro items
  induction items with
  | nil => intro x pi; simp [copy_loop]
  | cons hd rest ih =>
    intro x pi
    obtain ⟨sp, e⟩ := hd
    by_cases hr : rfile x
    · by_cases ha : answers pi
      · have := ih (x + 1) (pi + 1)
        simp [copy_loop, hr, ha, this.1, this.2.1, this.2.2.1, this.2.2.2]
      · simp [copy_loop, hr, ha]
    · have := ih (x + 1) pi
      simp [copy_loop, hr, this.1, this.2.1, this.2.2.1, this.2.2.2]

theorem copy_loop_events_of_complete (dst : String) (ty : DstType)
    (answers rfile : Nat → Bool) :
    ∀ (items : List (String × FSEntry)) (x pi : Nat),
      (copy_loop dst ty true answers rfile items x pi).completed = items.length →
      (copy_loop dst ty true answers rfile items x pi).events
        = (items.map (fun p => transfer_updates p.2)).flatten := by
  intro items
  induction items with
  | nil => intro x pi _; simp [copy_loop]
  | cons hd rest ih =>
    intro x pi hcomp
    obtain ⟨sp, e⟩ := hd
    by_cases hr : rfile x
    · by_cases ha : answers pi
      · have hc : (copy_loop dst ty true answers rfile rest (x + 1) (pi + 1)).completed
            = rest.length := by
          simp [copy_loop, hr, ha] at hcomp
          omega
        simp [copy_loop, hr, ha, ih (x + 1) (pi + 1) hc]
      · exfalso
        simp [copy_loop, hr, ha] at hcomp
    · have hc : (copy_loop dst ty true answers rfile rest (x + 1) pi).completed
          = rest.length := by
        simp [copy_loop, hr] at hcomp
        omega
      simp [copy_loop, hr, ih (x + 1) pi hc]

theorem plan_total_join_sum :
    ∀ (items : List (String × FSEntry)) (total : Nat),
      plan_total items = some total →
      (∀ p ∈ items, specials_zero_entry p.2 = true) →
      ((items.map (fun p => transfer_updates p.2)).flatten).sum = total := by
  intro items
  induction items with
  | nil => intro total h _; simp [plan_total] at h; simp [h]
  | cons hd rest ih =>
    intro total h hclean
    obtain ⟨sp, e⟩ := hd
    simp only [plan_total] at h
    cases hsz : src_size e with
    | none => rw [hsz] at h; simp at h
    | some sz =>
      rw [hsz] at h
      cases hrest : plan_total rest with
      | none => rw [hrest] at h; simp at h
      | some t =>
        rw [hrest] at h
        simp only [Option.some.injEq] at h
        have he : specials_zero_entry e = true := hclean (sp, e) (by simp)
        have hrest2 : ∀ p ∈ rest, specials_zero_entry p.2 = true := by
          intro p hp; exact hclean p (by simp [hp])
        simp only [List.map_cons, List.flatten_cons, List.sum_append]
        rw [transfer_updates_sum e sz he hsz, ih t hrest hrest2]
        omega

theorem div_lt_thousand {b f M : Nat} (hf : 0 < f) (hbM : b < M)
    (hM : M ≤ 1000 * f) : (b : ℚ) / (f : ℚ) < 1000 := by
  rw [div_lt_iff₀ (by exact_mod_cast hf)]
  have hb : b < 1000 * f := lt_of_lt_of_le hbM hM
  exact_mod_cast hb

theorem scaled_tenths_le_10000 {b f : Nat} (h : (b : ℚ) / (f : ℚ) < 1000) :
    size_scaled_tenths b f ≤ 10000 := by
  unfold size_scaled_tenths
  have hq : (b : ℚ) / (f : ℚ) * 10 < 10000 := by nlinarith
  have hfl : ⌊(b : ℚ) / (f : ℚ) * 10⌋ < 10000 := by
    have h1 := Int.floor_le ((b : ℚ) / (f : ℚ) * 10)
    have h2 : ((⌊(b : ℚ) / (f : ℚ) * 10⌋ : ℤ) : ℚ) < 10000 := lt_of_le_of_lt h1 hq
    exact_mod_cast h2
  have h3 := roundHalfEven_le_floor_add_one ((b : ℚ) / (f : ℚ) * 10)
  omega

/- ------------------------------------------------------------------ -/
/- Claims                                                              -/
/- ------------------------------------------------------------------ -/

/-- C1 counterexample: a directory holding a single special
(non-regular, non-directory) entry whose `stat` reports `st_size = 5`.
The claim says such entries contribute nothing, but
`directory_content_size` has no `S_ISREG` check and adds the reported
size of every statable non-directory entry, returning 5 where the
claimed regular-files-only sum is 0. -/
theorem C1_counterexample :
    directory_content_size (FSEntry.dir (FSList.cons (FSEntry.special 5) FSList.nil)) = 5 ∧
    SubtreeByteSize (FSEntry.dir (FSList.cons (FSEntry.special 5) FSList.nil)) = 0 ∧
    directory_content_size (FSEntry.dir (FSList.cons (FSEntry.special 5) FSList.nil)) ≠
      SubtreeByteSize (FSEntry.dir (FSList.cons (FSEntry.special 5) FSList.nil)) := by
  refine ⟨rfl, rfl, ?_⟩
  decide

/-- C1 (amended): `directory_content_size` recursively adds the
stat-reported size of every statable non-directory entry (directories
are walked and contribute nothing themselves; entries whose `stat`
fails are silently skipped); it therefore equals the spec function
`SubtreeByteSize` — the sum over exactly the regular files — precisely
on trees in which every special entry reports `st_size` zero. -/
theorem C1_theorem (t : FSEntry) (h : specials_zero_entry t = true) :
    directory_content_size t = SubtreeByteSize t := by
  cases t with
  | file n => rfl
  | special n => rfl
  | broken => rfl
  | dir cs =>
    exact dcs_children_eq_regular cs (by simpa [specials_zero_entry] using h)

/-- C1 witness: the spec test tree — files of sizes 10 and 20 plus an
empty subdirectory — is clean, and both sums evaluate to 30. -/
theorem C1_witness :
    specials_zero_entry (FSEntry.dir (FSList.cons (FSEntry.file 10)
      (FSList.cons (FSEntry.file 20)
        (FSList.cons (FSEntry.dir FSList.nil) FSList.nil)))) = true ∧
    directory_content_size (FSEntry.dir (FSList.cons (FSEntry.file 10)
      (FSList.cons (FSEntry.file 20)
        (FSList.cons (FSEntry.dir FSList.nil) FSList.nil))))
      = SubtreeByteSize (FSEntry.dir (FSList.cons (FSEntry.file 10)
      (FSList.cons (FSEntry.file 20)
        (FSList.cons (FSEntry.dir FSList.nil) FSList.nil)))) ∧
    directory_content_size (FSEntry.dir (FSList.cons (FSEntry.file 10)
      (FSList.cons (FSEntry.file 20)
        (FSList.cons (FSEntry.dir FSList.nil) FSList.nil)))) = 30 :=
  ⟨rfl,
   C1_theorem (FSEntry.dir (FSList.cons (FSEntry.file 10)
      (FSList.cons (FSEntry.file 20)
        (FSList.cons (FSEntry.dir FSList.nil) FSList.nil)))) rfl,
   rfl⟩

/-- C3 counterexample: a first read that delivers 3 bytes and leaves
`ferror` set.  `transfer_file` writes and reports the chunk, breaks out
of the loop, closes both streams and returns normally (`some [3]`), so
the process does not terminate — the claim says a mid-stream failure is
fatal. -/
theorem C3_counterexample :
    transfer_file_run true true [ReadStep.mk 3 true false] = some [3] ∧
    transfer_file_run true true [ReadStep.mk 3 true false] ≠ none := by
  refine ⟨rfl, ?_⟩
  decide

/-- C3 (amended): during the copy phase, only a failure to open the
source or destination stream terminates the process
(`transfer_file_run` is `none` exactly when an `fopen` failed); a read
error in the middle of the stream is not fatal: the errored chunk is
still written and reported, the loop merely stops there, and the
function returns normally so the run continues with subsequent files
and sources.  Destination write errors are never even checked. -/
theorem C3_theorem (src_open_ok dst_open_ok : Bool) (reads : List ReadStep) :
    (transfer_file_run src_open_ok dst_open_ok reads = none ↔
      (src_open_ok = false ∨ dst_open_ok = false)) ∧
    (∀ (s : ReadStep) (rest : List ReadStep), s.err = true →
      transfer_file_events (s :: rest) = [s.bytes]) := by
  constructor
  · cases src_open_ok <;> cases dst_open_ok <;> simp [transfer_file_run]
  · intro s rest hs
    simp [transfer_file_events, hs]

/-- C3 witness: a failed source open terminates the process, while an
errored 3-byte read does not — the chunk is streamed and the loop
stops. -/
theorem C3_witness :
    transfer_file_run false true [] = none ∧
    transfer_file_events [ReadStep.mk 3 true false] = [3] :=
  ⟨(C3_theorem false true []).1.mpr (Or.inl rfl),
   (C3_theorem true true []).2 (ReadStep.mk 3 true false) [] rfl⟩

/-- C5 (confirmed): for every destination path, destination
classification and source path, `get_real_destination_path` returns the
destination path unchanged unless the destination is classified as a
directory, in which case it returns the destination joined with the
separator and the base name of the source — exactly the spec function
`RealDestinationPath`. -/
theorem C5_theorem (dst_path : List Char) (dst_type : DstType) (src_path : List Char) :
    get_real_destination_path dst_path dst_type src_path
      = RealDestinationPath dst_path (decide (dst_type = DstType.directory)) src_path := by
  cases dst_type <;> rfl

/-- C6 counterexample: with a positive numerator and a zero total the
ratio is `+inf`, not NaN; the `isnan` guard does not fire and
`format_percent` prints `inf%` instead of the claimed `0%`. -/
theorem C6_counterexample :
    format_percent 5 0 = "inf%" ∧ format_percent 5 0 ≠ "0%" := by
  refine ⟨rfl, ?_⟩
  decide

/-- C6 (amended): `format_percent` returns `"0%"` when the total is
zero only if the so-far value is also zero (the `0/0` NaN guard); with
a zero total and a non-zero so-far value the quotient is `+inf` and the
output is `"inf%"`; for a non-zero total it prints the rounded
percentage followed by `%`, truncated by `snprintf` to the first
`PERCENT_BUFMAX - 1 = 5` characters — so whenever the rounded percent
is at most 9999 (at most four digits) the `%` suffix survives intact,
while larger ratios lose the suffix (and possibly digits) to the
buffer bound. -/
theorem C6_theorem (so_far total : Nat) :
    (total = 0 → so_far = 0 → format_percent so_far total = "0%") ∧
    (total = 0 → so_far ≠ 0 → format_percent so_far total = "inf%") ∧
    (total ≠ 0 → format_percent so_far total
      = String.mk ((toString (roundHalfEven ((so_far : ℚ) / (total : ℚ) * 100))
          ++ "%").data.take (PERCENT_BUFMAX - 1))) ∧
    (total ≠ 0 → roundHalfEven ((so_far : ℚ) / (total : ℚ) * 100) ≤ 9999 →
      format_percent so_far total
        = toString (roundHalfEven ((so_far : ℚ) / (total : ℚ) * 100)) ++ "%") := by
  have h3 : total ≠ 0 → format_percent so_far total
      = String.mk ((toString (roundHalfEven ((so_far : ℚ) / (total : ℚ) * 100))
          ++ "%").data.take (PERCENT_BUFMAX - 1)) := by
    intro ht
    simp [format_percent, ldDiv, ht]
  refine ⟨?_, ?_, h3, ?_⟩
  · intro ht hs
    simp [format_percent, ldDiv, ht, hs]
  · intro ht hs
    simp [format_percent, ldDiv, ht, hs]
  · intro ht hle
    rw [h3 ht]
    have hq : (0 : ℚ) ≤ (so_far : ℚ) / (total : ℚ) * 100 := by positivity
    exact percent_take_of_le_9999 _ (roundHalfEven_nonneg hq) hle

/-- C6 witness: the spec examples, the infinity case, and the
truncation case — a ratio of 100 with total 1 rounds to 10000, whose
five digits fill the buffer and push the `%` off the end. -/
theorem C6_witness :
    format_percent 0 0 = "0%" ∧ format_percent 5 0 = "inf%" ∧
    format_percent 50 100 = "50%" ∧ format_percent 100 1 = "10000" := by
  have h50 : ((50 : Nat) : ℚ) / ((100 : Nat) : ℚ) * 100 = ((50 : ℤ) : ℚ) := by
    norm_num
  have h100 : ((100 : Nat) : ℚ) / ((1 : Nat) : ℚ) * 100 = ((10000 : ℤ) : ℚ) := by
    norm_num
  refine ⟨(C6_theorem 0 0).1 rfl rfl, (C6_theorem 5 0).2.1 rfl (by decide), ?_, ?_⟩
  · rw [(C6_theorem 50 100).2.2.2 (by decide)
      (by rw [h50, roundHalfEven_intCast]; norm_num)]
    rw [h50, roundHalfEven_intCast]
    rfl
  · rw [(C6_theorem 100 1).2.2.1 (by decide)]
    rw [h100, roundHalfEven_intCast]
    rfl

/-- C7 counterexample: 999,999 bytes.  The threshold chain selects the
kilo unit (999999 < 10^6), the scaled value 999.999 rounds under
`%.1Lf` to 1000.0, and the output is `1000.0K` — a printed value of
1000 in the chosen unit, which the claim says can never happen. -/
theorem C7_counterexample :
    ¬ printed_tenths 999999 < 10000 ∧ format_size_short 999999 = "1000.0K" := by
  have hq : ((999999 : Nat) : ℚ) / ((KB_FACTOR : Nat) : ℚ) * 10
      = (999999 : ℚ) / 100 := by
    norm_num [KB_FACTOR]
  have hfl : ⌊((999999 : ℚ) / 100)⌋ = 9999 := by
    rw [Int.floor_eq_iff]
    constructor <;> norm_num
  have hs : size_scaled_tenths 999999 KB_FACTOR = 10000 := by
    unfold size_scaled_tenths roundHalfEven
    rw [hq, hfl]
    norm_num
  have hf : format_size_factor 999999 = KB_FACTOR := by
    unfold format_size_factor
    rw [if_neg (by norm_num [KB_FACTOR]), if_pos (by norm_num [MB_FACTOR])]
  have hpt : printed_tenths 999999 = 10000 := by
    unfold printed_tenths
    rw [if_neg (by norm_num [KB_FACTOR]), hf, hs]
  constructor
  · rw [hpt]
    decide
  · unfold format_size_short
    rw [if_neg (by norm_num [KB_FACTOR]), if_pos (by norm_num [MB_FACTOR])]
    simp only [sfmt_short]
    rw [hs]
    rfl

/-- C7 (amended): `format_size` in short form selects the largest
decimal unit whose factor does not exceed the byte count (so the scaled
value is at least 1), and the scaled value is strictly below 1000 in
that unit *before* rounding — but `%.1Lf` rounding can push the printed
value up to exactly 1000.0 (witness 999999 → `1000.0K`), so the printed
tenths are only bounded by 10000 rather than strictly below it.  The
boundary examples of the claim hold: 999 → `999B`, 1000 → `1.0K`,
1,000,000 → `1.0M`.  Byte counts are `uint64_t` values, hence below
2^64. -/
theorem C7_theorem (b : Nat) (hb : b < 18446744073709551616) :
    (KB_FACTOR ≤ b →
      format_size_factor b ≤ b ∧
      (b : ℚ) / ((format_size_factor b : Nat) : ℚ) < 1000) ∧
    printed_tenths b ≤ 10000 ∧
    format_size_short 999 = "999B" ∧
    format_size_short 1000 = "1.0K" ∧
    format_size_short 1000000 = "1.0M" := by
  have hmain : KB_FACTOR ≤ b →
      format_size_factor b ≤ b ∧
      (b : ℚ) / ((format_size_factor b : Nat) : ℚ) < 1000 := by
    intro hkb
    unfold format_size_factor
    rw [if_neg (by omega)]
    by_cases h2 : b < MB_FACTOR
    · rw [if_pos h2]
      exact ⟨hkb, div_lt_thousand (by norm_num [KB_FACTOR]) h2
        (by norm_num [KB_FACTOR, MB_FACTOR])⟩
    · rw [if_neg h2]
      by_cases h3 : b < GB_FACTOR
      · rw [if_pos h3]
        exact ⟨by omega, div_lt_thousand (by norm_num [MB_FACTOR]) h3
          (by norm_num [MB_FACTOR, GB_FACTOR])⟩
      · rw [if_neg h3]
        by_cases h4 : b < TB_FACTOR
        · rw [if_pos h4]
          exact ⟨by omega, div_lt_thousand (by norm_num [GB_FACTOR]) h4
            (by norm_num [GB_FACTOR, TB_FACTOR])⟩
        · rw [if_neg h4]
          by_cases h5 : b < PB_FACTOR
          · rw [if_pos h5]
            exact ⟨by omega, div_lt_thousand (by norm_num [TB_FACTOR]) h5
              (by norm_num [TB_FACTOR, PB_FACTOR])⟩
          · rw [if_neg h5]
            by_cases h6 : b < EB_FACTOR
            · rw [if_pos h6]
              exact ⟨by omega, div_lt_thousand (by norm_num [PB_FACTOR]) h6
                (by norm_num [PB_FACTOR, EB_FACTOR])⟩
            · rw [if_neg h6]
              exact ⟨by omega, div_lt_thousand (by norm_num [EB_FACTOR]) hb
                (by norm_num [EB_FACTOR])⟩
  have e1 : format_size_short 999 = "999B" := by
    unfold format_size_short
    rw [if_pos (by norm_num [KB_FACTOR])]
    rfl
  have e2 : format_size_short 1000 = "1.0K" := by
    unfold format_size_short
    rw [if_neg (by norm_num [KB_FACTOR]), if_pos (by norm_num [MB_FACTOR])]
    have hs : size_scaled_tenths 1000 KB_FACTOR = 10 := by
      unfold size_scaled_tenths
      have hq : ((1000 : Nat) : ℚ) / ((KB_FACTOR : Nat) : ℚ) * 10
          = ((10 : ℤ) : ℚ) := by norm_num [KB_FACTOR]
      rw [hq, roundHalfEven_intCast]
    simp only [sfmt_short]
    rw [hs]
    rfl
  have e3 : format_size_short 1000000 = "1.0M" := by
    unfold format_size_short
    rw [if_neg (by norm_num [KB_FACTOR]), if_neg (by norm_num [MB_FACTOR]),
      if_pos (by norm_num [GB_FACTOR])]
    have hs : size_scaled_tenths 1000000 MB_FACTOR = 10 := by
      unfold size_scaled_tenths
      have hq : ((1000000 : Nat) : ℚ) / ((MB_FACTOR : Nat) : ℚ) * 10
          = ((10 : ℤ) : ℚ) := by norm_num [MB_FACTOR]
      rw [hq, roundHalfEven_intCast]
    simp only [sfmt_short]
    rw [hs]
    rfl
  refine ⟨hmain, ?_, e1, e2, e3⟩
  unfold printed_tenths
  by_cases h1 : b < KB_FACTOR
  · rw [if_pos h1]
    have h999 : b < 1000 := by
      have := h1
      norm_num [KB_FACTOR] at this
      exact this
    omega
  · rw [if_neg h1]
    exact scaled_tenths_le_10000 (hmain (by omega)).2

/-- C7 witness: 5000 bytes — the kilo factor 1000 is at most 5000, the
scaled value 5.0 is below 1000, and the boundary examples hold. -/
theorem C7_witness :
    format_size_factor 5000 ≤ 5000 ∧
    ((5000 : Nat) : ℚ) / ((format_size_factor 5000 : Nat) : ℚ) < 1000 ∧
    printed_tenths 5000 ≤ 10000 ∧
    format_size_short 999 = "999B" ∧
    format_size_short 1000 = "1.0K" ∧
    format_size_short 1000000 = "1.0M" := by
  have h := C7_theorem 5000 (by norm_num)
  have h1 := h.1 (by norm_num [KB_FACTOR])
  exact ⟨h1.1, h1.2, h.2.1, h.2.2.1, h.2.2.2.1, h.2.2.2.2⟩

/-- C8 counterexample: with 5 columns remaining and 4 needed after the
bar, the computed bar length is `-1 ≤ 0`, yet the guard in
`progress_show` is a plain non-zero test, so the bar is not omitted:
the brackets and the head character are still printed (`[>]`). -/
theorem C8_counterexample :
    progress_bar_size 5 4 ≤ 0 ∧
    progress_bar_render (progress_bar_size 5 4)
      (progress_bar_fill (progress_bar_size 5 4) 0 100) = ['[', '>', ']'] := by
  have hfill : progress_bar_fill (progress_bar_size 5 4) 0 100 = 0 := by
    unfold progress_bar_fill progress_bar_size roundHalfAway
    norm_num
  refine ⟨by decide, ?_⟩
  rw [hfill]
  decide

/-- C8 (amended): the bar length is remaining space minus suffix length
minus 2 and the fill is `roundl` of the ratio times the length, but the
bar is omitted only when the computed length is exactly zero; when it
is negative the two loops run zero times and `progress_show` still
prints the brackets and the head, `[>]`, while prefix and suffix text
print as usual.  (A zero item total is excluded: there the C ratio is
NaN and the integer conversion of the fill is undefined.) -/
theorem C8_theorem (remaining_space space_after_bar : ℤ) (so_far total : Nat)
    (htot : 0 < total) :
    progress_bar_size remaining_space space_after_bar
      = remaining_space - space_after_bar - 2 ∧
    (progress_bar_size remaining_space space_after_bar = 0 →
      progress_bar_render (progress_bar_size remaining_space space_after_bar)
        (progress_bar_fill (progress_bar_size remaining_space space_after_bar)
          so_far total) = []) ∧
    (progress_bar_size remaining_space space_after_bar < 0 →
      progress_bar_render (progress_bar_size remaining_space space_after_bar)
        (progress_bar_fill (progress_bar_size remaining_space space_after_bar)
          so_far total) = ['[', '>', ']']) := by
  refine ⟨rfl, ?_, ?_⟩
  · intro h0
    simp [progress_bar_render, h0]
  · intro hneg
    have hq : ((so_far : ℚ) / (total : ℚ)) *
        ((progress_bar_size remaining_space space_after_bar : ℤ) : ℚ) ≤ 0 := by
      have h1 : (0 : ℚ) ≤ (so_far : ℚ) / (total : ℚ) := by positivity
      have h2 : ((progress_bar_size remaining_space space_after_bar : ℤ) : ℚ) ≤ 0 := by
        exact_mod_cast le_of_lt hneg
      calc ((so_far : ℚ) / (total : ℚ)) *
            ((progress_bar_size remaining_space space_after_bar : ℤ) : ℚ)
          ≤ ((so_far : ℚ) / (total : ℚ)) * 0 := by
            exact mul_le_mul_of_nonneg_left h2 h1
        _ = 0 := by ring
    have hfill : progress_bar_fill (progress_bar_size remaining_space space_after_bar)
        so_far total ≤ 0 := roundHalfAway_nonpos hq
    unfold progress_bar_render
    rw [if_neg (by omega)]
    rw [Int.toNat_of_nonpos hfill]
    have hz : (progress_bar_size remaining_space space_after_bar
        - ((0 : Nat) : ℤ)).toNat = 0 := by
      apply Int.toNat_of_nonpos
      omega
    rw [hz]
    simp

/-- C8 witness: 10 columns remaining, 9 after the bar, item at 50 of
100 bytes — bar length is `-1` and the degenerate bar `[>]` is printed. -/
theorem C8_witness :
    progress_bar_render (progress_bar_size 10 9)
      (progress_bar_fill (progress_bar_size 10 9) 50 100) = ['[', '>', ']'] :=
  (C8_theorem 10 9 50 100 (by decide)).2.2 (by decide)

/-- C2 counterexample: two file sources into an existing directory
destination, with the first copy-loop overwrite prompt declined.  The
loop breaks, `try_copy` returns, and `main` calls
`exit (EXIT_SUCCESS)`: the overwrite was declined yet the exit status
is 0, contradicting the claim. -/
theorem C2_counterexample :
    (try_copy_run [("a", FSEntry.file 3), ("b", FSEntry.file 4)] "d"
      DstInit.existsDir true (fun _ => false) (fun _ => true)).loopDeclined = true ∧
    (try_copy_run [("a", FSEntry.file 3), ("b", FSEntry.file 4)] "d"
      DstInit.existsDir true (fun _ => false) (fun _ => true)).exitCode = 0 := by
  exact ⟨rfl, rfl⟩

/-- C2 (amended): only the planning-phase overwrite decline (single
source onto a regular-file destination) terminates the process with a
non-zero status, via `die`; a decline at the per-item prompt inside the
copy loop merely breaks out of the loop, after which `try_copy` returns
and `main` exits with status 0. -/
theorem C2_theorem (sources : List (String × FSEntry)) (dst_path : String)
    (dst_init : DstInit) (show_progress : Bool) (answers rfile : Nat → Bool) :
    ((try_copy_run sources dst_path dst_init show_progress answers rfile).planningDeclined
        = true →
      (try_copy_run sources dst_path dst_init show_progress answers rfile).exitCode = 1) ∧
    ((try_copy_run sources dst_path dst_init show_progress answers rfile).loopDeclined
        = true →
      (try_copy_run sources dst_path dst_init show_progress answers rfile).exitCode = 0) := by
  unfold try_copy_run
  cases h : classify_dst sources.length dst_init with
  | none => simp [h]
  | some dty =>
    simp only [h]
    split_ifs with h1 h2 h3
    · simp
    · unfold run_after_plan
      cases plan_total sources <;> simp
    · simp
    · unfold run_after_plan
      cases plan_total sources <;> simp

/-- C2 witness: a planning-phase decline exits with status 1; a
copy-loop decline exits with status 0. -/
theorem C2_witness :
    (try_copy_run [("a", FSEntry.file 3)] "b" DstInit.existsFile true
      (fun _ => false) (fun _ => true)).exitCode = 1 ∧
    (try_copy_run [("a", FSEntry.file 3), ("b", FSEntry.file 4)] "d"
      DstInit.existsDir true (fun _ => false) (fun _ => true)).exitCode = 0 :=
  ⟨(C2_theorem [("a", FSEntry.file 3)] "b" DstInit.existsFile true
      (fun _ => false) (fun _ => true)).1 rfl,
   (C2_theorem [("a", FSEntry.file 3), ("b", FSEntry.file 4)] "d"
      DstInit.existsDir true (fun _ => false) (fun _ => true)).2 rfl⟩

/-- C4 counterexample: one 5-byte file source into an existing
directory.  With `--no-progress` the aggregate counter stays 0, while
the same run with progress enabled accumulates 5 — the counters are
not incremented at all, not merely left unredrawn. -/
theorem C4_counterexample :
    (try_copy_run [("a", FSEntry.file 5)] "d" DstInit.existsDir false
      (fun _ => true) (fun _ => false)).so_far_bytes = 0 ∧
    (try_copy_run [("a", FSEntry.file 5)] "d" DstInit.existsDir true
      (fun _ => true) (fun _ => false)).so_far_bytes = 5 := by
  exact ⟨rfl, rfl⟩

/-- C4 (amended): with `--no-progress` the engine never calls
`progress_update`, so no chunk is ever added to the per-item or
aggregate counters and `so_far_bytes` stays 0; everything else about
the run — exit status, prompts, declines, items completed, and the
planned `total_bytes` — is identical to the run with progress
enabled. -/
theorem C4_theorem (sources : List (String × FSEntry)) (dst_path : String)
    (dst_init : DstInit) (answers rfile : Nat → Bool) :
    (try_copy_run sources dst_path dst_init false answers rfile).update_events = [] ∧
    (try_copy_run sources dst_path dst_init false answers rfile).so_far_bytes = 0 ∧
    (try_copy_run sources dst_path dst_init false answers rfile).exitCode
      = (try_copy_run sources dst_path dst_init true answers rfile).exitCode ∧
    (try_copy_run sources dst_path dst_init false answers rfile).prompts
      = (try_copy_run sources dst_path dst_init true answers rfile).prompts ∧
    (try_copy_run sources dst_path dst_init false answers rfile).planningDeclined
      = (try_copy_run sources dst_path dst_init true answers rfile).planningDeclined ∧
    (try_copy_run sources dst_path dst_init false answers rfile).loopDeclined
      = (try_copy_run sources dst_path dst_init true answers rfile).loopDeclined ∧
    (try_copy_run sources dst_path dst_init false answers rfile).itemsCompleted
      = (try_copy_run sources dst_path dst_init true answers rfile).itemsCompleted ∧
    (try_copy_run sources dst_path dst_init false answers rfile).total_bytes
      = (try_copy_run sources dst_path dst_init true answers rfile).total_bytes := by
  have hrap : ∀ (dty : DstType) (pi0 : Nat) (prompts0 : List String),
      (run_after_plan sources dst_path dty false answers rfile pi0 prompts0).update_events
          = [] ∧
      (run_after_plan sources dst_path dty false answers rfile pi0 prompts0).so_far_bytes
          = 0 ∧
      (run_after_plan sources dst_path dty false answers rfile pi0 prompts0).exitCode
        = (run_after_plan sources dst_path dty true answers rfile pi0 prompts0).exitCode ∧
      (run_after_plan sources dst_path dty false answers rfile pi0 prompts0).prompts
        = (run_after_plan sources dst_path dty true answers rfile pi0 prompts0).prompts ∧
      (run_after_plan sources dst_path dty false answers rfile pi0 prompts0).planningDeclined
        = (run_after_plan sources dst_path dty true answers rfile pi0
            prompts0).planningDeclined ∧
      (run_after_plan sources dst_path dty false answers rfile pi0 prompts0).loopDeclined
        = (run_after_plan sources dst_path dty true answers rfile pi0
            prompts0).loopDeclined ∧
      (run_after_plan sources dst_path dty false answers rfile pi0 prompts0).itemsCompleted
        = (run_after_plan sources dst_path dty true answers rfile pi0
            prompts0).itemsCompleted ∧
      (run_after_plan sources dst_path dty false answers rfile pi0 prompts0).total_bytes
        = (run_after_plan sources dst_path dty true answers rfile pi0
            prompts0).total_bytes := by
    intro dty pi0 prompts0
    unfold run_after_plan
    cases plan_total sources with
    | none => simp
    | some t =>
      have h := copy_loop_no_progress dst_path dty answers rfile sources 0 pi0
      simp [h.1, h.2.1, h.2.2.1, h.2.2.2]
  unfold try_copy_run
  cases h : classify_dst sources.length dst_init with
  | none => simp [h]
  | some dty =>
    simp only [h]
    split_ifs with h1 h2 h3
    · simp
    · exact hrap dty 1 [dst_path]
    · simp
    · exact hrap dty 0 []

/-- The copy loop under a full run: if every item completed, the
events are exactly the concatenated per-item transfer chunk reports,
whose sum is the planned total. -/
theorem run_after_plan_total (sources : List (String × FSEntry)) (dst_path : String)
    (dty : DstType) (answers rfile : Nat → Bool) (pi0 : Nat) (prompts0 : List String)
    (hclean : ∀ p ∈ sources, specials_zero_entry p.2 = true)
    (hcomp : (run_after_plan sources dst_path dty true answers rfile
        pi0 prompts0).itemsCompleted = sources.length) :
    (run_after_plan sources dst_path dty true answers rfile pi0 prompts0).so_far_bytes
      = (run_after_plan sources dst_path dty true answers rfile pi0
          prompts0).total_bytes := by
  unfold run_after_plan at hcomp ⊢
  cases hp : plan_total sources with
  | none =>
    exfalso
    cases sources with
    | nil => simp [plan_total] at hp
    | cons a t =>
      rw [hp] at hcomp
      simp at hcomp
  | some total =>
    rw [hp] at hcomp
    have hev := copy_loop_events_of_complete dst_path dty answers rfile
      sources 0 pi0 (by simpa using hcomp)
    simp [hev, plan_total_join_sum sources total hp hclean]

/-- C9 counterexample: one source directory containing a single special
entry that stats with size 5, progress enabled, every prompt answered
yes.  The run completes every item and exits 0, `total_bytes` is 5
(planning counts the special entry), but nothing is ever copied, so at
completion `so_far_bytes` is 0, not `total_bytes`. -/
theorem C9_counterexample :
    (try_copy_run [("s", FSEntry.dir (FSList.cons (FSEntry.special 5) FSList.nil))] "d"
      DstInit.existsDir true (fun _ => true) (fun _ => false)).exitCode = 0 ∧
    (try_copy_run [("s", FSEntry.dir (FSList.cons (FSEntry.special 5) FSList.nil))] "d"
      DstInit.existsDir true (fun _ => true) (fun _ => false)).itemsCompleted = 1 ∧
    (try_copy_run [("s", FSEntry.dir (FSList.cons (FSEntry.special 5) FSList.nil))] "d"
      DstInit.existsDir true (fun _ => true) (fun _ => false)).total_bytes = 5 ∧
    (try_copy_run [("s", FSEntry.dir (FSList.cons (FSEntry.special 5) FSList.nil))] "d"
      DstInit.existsDir true (fun _ => true) (fun _ => false)).so_far_bytes = 0 := by
  exact ⟨rfl, rfl, rfl, rfl⟩

/-- C9 (amended): `so_far_bytes` is the running sum of the chunks
reported by the file-writing step — its prefix sums never decrease, and
it is mutated by nothing else — and after a full run (progress enabled,
exit 0, every item completed) it equals `total_bytes` provided every
source subtree is free of special entries with a non-zero stat size;
a special entry is counted by the planning pass but never copied, which
breaks the equality (see the counterexample). -/
theorem C9_theorem (sources : List (String × FSEntry)) (dst_path : String)
    (dst_init : DstInit) (answers rfile : Nat → Bool) :
    (∀ k m : Nat, k ≤ m →
      (((try_copy_run sources dst_path dst_init true answers
          rfile).update_events.take k).sum
        ≤ (((try_copy_run sources dst_path dst_init true answers
          rfile).update_events.take m)).sum)) ∧
    ((try_copy_run sources dst_path dst_init true answers rfile).so_far_bytes
      = (try_copy_run sources dst_path dst_init true answers rfile).update_events.sum) ∧
    ((∀ p ∈ sources, specials_zero_entry p.2 = true) →
      (try_copy_run sources dst_path dst_init true answers rfile).exitCode = 0 →
      (try_copy_run sources dst_path dst_init true answers rfile).itemsCompleted
        = sources.length →
      (try_copy_run sources dst_path dst_init true answers rfile).so_far_bytes
        = (try_copy_run sources dst_path dst_init true answers rfile).total_bytes) := by
  refine ⟨fun k m hkm => sum_take_mono _ k m hkm, ?_, ?_⟩
  · unfold try_copy_run
    cases h : classify_dst sources.length dst_init with
    | none => simp [h]
    | some dty =>
      simp only [h]
      split_ifs with h1 h2 h3
      · simp
      · unfold run_after_plan
        cases plan_total sources <;> simp
      · simp
      · unfold run_after_plan
        cases plan_total sources <;> simp
  · intro hclean hexit hcomp
    unfold try_copy_run at hexit hcomp ⊢
    cases h : classify_dst sources.length dst_init with
    | none => simp [h] at hexit
    | some dty =>
      simp only [h] at hexit hcomp ⊢
      by_cases h1 : sources.length > 1 ∧ dty ≠ DstType.directory
      · rw [if_pos h1] at hexit
        simp at hexit
      · rw [if_neg h1] at hexit hcomp ⊢
        by_cases h2 : sources.length = 1 ∧ dty = DstType.file
        · rw [if_pos h2] at hexit hcomp ⊢
          by_cases h3 : answers 0
          · rw [if_pos h3] at hexit hcomp ⊢
            exact run_after_plan_total sources dst_path dty answers rfile
              1 [dst_path] hclean hcomp
          · rw [if_neg h3] at hexit
            simp at hexit
        · rw [if_neg h2] at hexit hcomp ⊢
          exact run_after_plan_total sources dst_path dty answers rfile
            0 [] hclean hcomp

/-- C9 witness: one 3-byte file source into an existing directory with
no prompts in the way — the aggregate counter at completion equals the
planned total. -/
theorem C9_witness :
    (try_copy_run [("a", FSEntry.file 3)] "d" DstInit.existsDir true
      (fun _ => true) (fun _ => false)).so_far_bytes
      = (try_copy_run [("a", FSEntry.file 3)] "d" DstInit.existsDir true
        (fun _ => true) (fun _ => false)).total_bytes :=
  (C9_theorem [("a", FSEntry.file 3)] "d" DstInit.existsDir
    (fun _ => true) (fun _ => false)).2.2 (by decide) rfl rfl

/-- C10 (confirmed): with exactly one source and a destination that
already exists as a regular file, an affirmative planning-phase answer
leads to a second prompt for the very same path in the copy loop
(`check_real_destination_path` stats the unchanged destination again);
declining there skips the copy entirely — no prompt events, no items —
and the process still exits with status 0.  `hr0` records that the
destination still stats as a regular file when the loop reaches it. -/
theorem C10_theorem (sp dst_path : String) (e : FSEntry) (answers rfile : Nat → Bool)
    (hsrc : (src_size e).isSome = true)
    (ha0 : answers 0 = true) (ha1 : answers 1 = false) (hr0 : rfile 0 = true) :
    (try_copy_run [(sp, e)] dst_path DstInit.existsFile true answers rfile).prompts
      = [dst_path, dst_path] ∧
    (try_copy_run [(sp, e)] dst_path DstInit.existsFile true answers
      rfile).itemsCompleted = 0 ∧
    (try_copy_run [(sp, e)] dst_path DstInit.existsFile true answers
      rfile).update_events = [] ∧
    (try_copy_run [(sp, e)] dst_path DstInit.existsFile true answers
      rfile).exitCode = 0 := by
  obtain ⟨sz, hsz⟩ := Option.isSome_iff_exists.mp hsrc
  have hrpath : grdpStr dst_path DstType.file sp = dst_path := rfl
  unfold try_copy_run classify_dst
  simp only [List.length_cons, List.length_nil]
  rw [if_neg (by simp), if_pos (by simp), if_pos ha0]
  unfold run_after_plan
  simp only [plan_total, hsz]
  unfold copy_loop
  rw [hr0, ha1]
  simp [hrpath]

/-- C10 witness: a 3-byte file `a.txt` onto the existing regular file
`b.txt`, first answer yes, second answer no, destination still a
regular file at the loop: both prompts name `b.txt`, nothing is copied,
exit status 0. -/
theorem C10_witness :
    (try_copy_run [("a.txt", FSEntry.file 3)] "b.txt" DstInit.existsFile true
      (fun i => i == 0) (fun _ => true)).prompts = ["b.txt", "b.txt"] ∧
    (try_copy_run [("a.txt", FSEntry.file 3)] "b.txt" DstInit.existsFile true
      (fun i => i == 0) (fun _ => true)).itemsCompleted = 0 ∧
    (try_copy_run [("a.txt", FSEntry.file 3)] "b.txt" DstInit.existsFile true
      (fun i => i == 0) (fun _ => true)).update_events = [] ∧
    (try_copy_run [("a.txt", FSEntry.file 3)] "b.txt" DstInit.existsFile true
      (fun i => i == 0) (fun _ => true)).exitCode = 0 :=
  C10_theorem ("a.txt") ("b.txt") (FSEntry.file 3)
    (fun i => i == 0) (fun _ => true) rfl rfl rfl rfl

end Copy
